import Mathlib

/-!
Verification of the GigOptimizer selection engine (`optimize_projects` in
`app.py`).

The engine filters a list of candidate projects by a minimum skill-match
threshold and then solves a 0/1 knapsack (maximize total pay subject to a
total-hours budget) through `scipy.optimize.milp`.  Pay, hours and scores
are real-valued inputs; we embed them as rationals so that arithmetic is
exact.  The external MILP solver is embedded by its interface contract: a
solver outcome is either success with a 0/1 incidence vector, a reported
non-success, or a raised exception, and a *successful* outcome of a correct
exact solver yields an optimal feasible incidence vector for the posed
program (`IsOptimal` below).
-/

namespace GigOptimizer

/-- A candidate project row.  Of the dataframe columns, only `total_pay`,
`hours_required` and `skill_match` are read by `optimize_projects`; the
identifying columns do not affect the computation and are omitted. -/
structure Project where
  total_pay : ℚ
  hours_required : ℚ
  skill_match : ℚ
deriving DecidableEq

/-- Sum of `total_pay` over a list of projects
(`selected_projects['total_pay'].sum()`). -/
def totalPay (l : List Project) : ℚ :=
  (l.map Project.total_pay).sum

/-- Sum of `hours_required` over a list of projects
(`selected_projects['hours_required'].sum()`). -/
def totalHours (l : List Project) : ℚ :=
  (l.map Project.hours_required).sum

/-- The eligibility filter:
`projects_df[projects_df['skill_match'] >= min_skill_match]`.
Keeps, in their original order, exactly the rows whose skill match is at
least the threshold. -/
def eligibleFilter (projects : List Project) (min_skill_match : ℚ) : List Project :=
  projects.filter (fun p => min_skill_match ≤ p.skill_match)

/-- Row selection by a 0/1 incidence vector:
`eligible_df.iloc[np.where(result.x > 0.5)[0]]`.  Keeps the i-th row
exactly when the i-th decision variable is set. -/
def selectBy : List Project → List Bool → List Project
  | _, [] => []
  | [], _ :: _ => []
  | p :: ps, b :: bs => if b then p :: selectBy ps bs else selectBy ps bs

/-- All sub-pools (sublists, order preserved) of a candidate pool; the
search space of the 0/1 program `optimize_projects` poses to the solver. -/
def subPools : List Project → List (List Project)
  | [] => [[]]
  | p :: ps => (subPools ps).map (fun s => p :: s) ++ subPools ps

/-- Outcome of one `milp` call as seen by `optimize_projects`: the solver
either returns with `result.success` true and an incidence vector
`result.x`, returns unsuccessfully with a message (`result.message`), or
raises an exception caught by the surrounding `try`. -/
inductive SolveOutcome where
  | success (x : List Bool)
  | failure (message : String)
  | exception (message : String)
deriving DecidableEq

/-- The program `optimize_projects` poses to `milp`: maximize total pay
over 0/1 incidence vectors subject to total hours at most the available
hours.  `IsOptimal l b x` says `x` is a feasible incidence vector for pool
`l` and budget `b` whose selection's pay is maximal among all sub-pools
that fit the budget.  A correct exact solver returns such an `x` whenever
it reports success; this is the contract by which the external solver is
embedded. -/
def IsOptimal (l : List Project) (b : ℚ) (x : List Bool) : Prop :=
  x.length = l.length ∧ totalHours (selectBy l x) ≤ b ∧
    ∀ s ∈ subPools l, totalHours s ≤ b → totalPay s ≤ totalPay (selectBy l x)

instance (l : List Project) (b : ℚ) (x : List Bool) : Decidable (IsOptimal l b x) := by
  unfold IsOptimal; infer_instance

/-- The metrics dictionary built on the success path of `optimize_projects`. -/
structure OptResults where
  total_earnings : ℚ
  total_hours : ℚ
  available_hours : ℚ
  hours_remaining : ℚ
  projects_selected : ℕ
  projects_available : ℕ
  utilization : ℚ
deriving DecidableEq

/-- Shallow embedding of `optimize_projects(projects_df, available_hours,
min_skill_match)`, parameterized by the solver backend `solve` standing
for the `milp` call.  Mirrors the source: empty-input check, skill-match
filter, empty-pool check, solve, then either the selection with its
metrics dictionary or an error message. -/
def optimize_projects (solve : List Project → ℚ → SolveOutcome)
    (projects : List Project) (available_hours : ℚ) (min_skill_match : ℚ) :
    Option (List Project) × Option OptResults × Option String :=
  if projects.length = 0 then
    (none, none, some "No projects to optimize")
  else if (eligibleFilter projects min_skill_match).length = 0 then
    (none, none, some "No projects meet the minimum skill match requirement")
  else
    match solve (eligibleFilter projects min_skill_match) available_hours with
    | .success x =>
        (some (selectBy (eligibleFilter projects min_skill_match) x),
         some { total_earnings := totalPay (selectBy (eligibleFilter projects min_skill_match) x)
                total_hours := totalHours (selectBy (eligibleFilter projects min_skill_match) x)
                available_hours := available_hours
                hours_remaining :=
                  available_hours - totalHours (selectBy (eligibleFilter projects min_skill_match) x)
                projects_selected := (selectBy (eligibleFilter projects min_skill_match) x).length
                projects_available := projects.length
                utilization :=
                  if 0 < available_hours then
                    totalHours (selectBy (eligibleFilter projects min_skill_match) x)
                      / available_hours * 100
                  else 0 },
         none)
    | .failure msg => (none, none, some ("Optimization failed: " ++ msg))
    | .exception msg => (none, none, some ("Error during optimization: " ++ msg))

/-- The best achievable total pay over all sub-pools of `l` whose total
hours fit in budget `b` (with `0 ≤ b` the empty sub-pool is among them, so
the fold's base 0 is itself a candidate value and this is the true
maximum). -/
def bestPay (l : List Project) (b : ℚ) : ℚ :=
  (((subPools l).filter (fun s => totalHours s ≤ b)).map totalPay).foldr max 0

/-- A degenerate solver backend that ignores its input and returns a fixed
incidence vector; used to instantiate theorems at concrete runs. -/
def constSolve (x : List Bool) : List Project → ℚ → SolveOutcome :=
  fun _ _ => SolveOutcome.success x

/-- The four-project instance of the spec's scenarios: pays
2500/1800/3200/1500, hours 40/25/50/20, skill matches 95/80/90/75 (the
first four rows of `create_sample_projects`). -/
def scenarioA : List Project :=
  [⟨2500, 40, 95⟩, ⟨1800, 25, 80⟩, ⟨3200, 50, 90⟩, ⟨1500, 20, 75⟩]

/-! ### Helper lemmas -/

theorem mem_subPools {s l : List Project} : s ∈ subPools l ↔ s.Sublist l := by
  induction l generalizing s with
  | nil => simp [subPools, List.sublist_nil]
  | cons p ps ih =>
    simp only [subPools, List.mem_append, List.mem_map]
    constructor
    · rintro (⟨t, ht, rfl⟩ | h)
      · exact List.Sublist.cons₂ p (ih.mp ht)
      · exact List.Sublist.cons p (ih.mp h)
    · intro h
      cases h with
      | cons _ h2 => exact Or.inr (ih.mpr h2)
      | cons₂ _ h2 => exact Or.inl ⟨_, ih.mpr h2, rfl⟩

theorem selectBy_sublist (l : List Project) : ∀ x : List Bool, (selectBy l x).Sublist l := by
  induction l with
  | nil => intro x; cases x <;> simp [selectBy]
  | cons p ps ih =>
    intro x
    cases x with
    | nil => simp [selectBy]
    | cons b bs =>
      cases b
      · rw [show selectBy (p :: ps) (false :: bs) = selectBy ps bs from rfl]
        exact List.Sublist.cons p (ih bs)
      · rw [show selectBy (p :: ps) (true :: bs) = p :: selectBy ps bs from rfl]
        exact List.Sublist.cons₂ p (ih bs)

theorem zero_le_foldr_max : ∀ L : List ℚ, 0 ≤ L.foldr max 0
  | [] => le_refl 0
  | a :: L => le_trans (zero_le_foldr_max L) (le_max_right a _)

theorem le_foldr_max {L : List ℚ} {a : ℚ} (h : a ∈ L) : a ≤ L.foldr max 0 := by
  induction L with
  | nil => cases h
  | cons b L ih =>
    rcases List.mem_cons.mp h with rfl | h2
    · exact le_max_left _ _
    · exact le_trans (ih h2) (le_max_right _ _)

theorem foldr_max_le {L : List ℚ} {c : ℚ} (h0 : 0 ≤ c) (h : ∀ a ∈ L, a ≤ c) :
    L.foldr max 0 ≤ c := by
  induction L with
  | nil => exact h0
  | cons b L ih =>
    exact max_le (h b (List.mem_cons_self b L)) (ih (fun a ha => h a (List.mem_cons_of_mem b ha)))

theorem totalHours_nonneg {s : List Project} (hp : ∀ p ∈ s, 0 < p.hours_required) :
    0 ≤ totalHours s := by
  induction s with
  | nil => exact le_refl 0
  | cons q t ih =>
    have h1 : 0 < q.hours_required := hp q (List.mem_cons_self q t)
    have h2 : 0 ≤ totalHours t := ih (fun p hpm => hp p (List.mem_cons_of_mem q hpm))
    have h3 : totalHours (q :: t) = q.hours_required + totalHours t := by
      simp [totalHours]
    rw [h3]
    linarith

theorem eq_nil_of_totalHours_nonpos {s : List Project}
    (hp : ∀ p ∈ s, 0 < p.hours_required) (h : totalHours s ≤ 0) : s = [] := by
  cases s with
  | nil => rfl
  | cons q t =>
    exfalso
    have h1 : 0 < q.hours_required := hp q (List.mem_cons_self q t)
    have h2 : 0 ≤ totalHours t := totalHours_nonneg (fun p hpm => hp p (List.mem_cons_of_mem q hpm))
    have h3 : totalHours (q :: t) = q.hours_required + totalHours t := by
      simp [totalHours]
    rw [h3] at h
    linarith

theorem append_ne_empty (s t : String) (h : s ≠ "") : s ++ t ≠ "" := by
  intro he
  apply h
  cases s with
  | mk ds =>
    cases t with
    | mk dt =>
      have hd : ds ++ dt = ([] : List Char) := congrArg String.data he
      have h1 : ds = [] := (List.append_eq_nil.mp hd).1
      rw [h1]

theorem length_filter_mono {p q : Project → Bool} (l : List Project)
    (h : ∀ a, q a = true → p a = true) :
    (l.filter q).length ≤ (l.filter p).length := by
  induction l with
  | nil => simp
  | cons a l ih =>
    simp only [List.filter_cons]
    by_cases hq : q a = true
    · rw [if_pos hq, if_pos (h a hq)]
      simpa using ih
    · rw [if_neg hq]
      cases hp : p a
      · rw [if_neg (by simp [hp])]
        exact ih
      · rw [if_pos rfl]
        exact le_trans ih (by simp)

theorem bestPay_mono (l : List Project) {b1 b2 : ℚ} (hb : b1 ≤ b2) :
    bestPay l b1 ≤ bestPay l b2 := by
  apply foldr_max_le (zero_le_foldr_max _)
  intro a ha
  rcases List.mem_map.mp ha with ⟨s, hs, rfl⟩
  apply le_foldr_max
  rcases List.mem_filter.mp hs with ⟨hmem, hcond⟩
  exact List.mem_map.mpr
    ⟨s, List.mem_filter.mpr ⟨hmem, decide_eq_true (le_trans (of_decide_eq_true hcond) hb)⟩, rfl⟩

/-- With a nonnegative budget, the pay of any optimal selection equals the
best achievable pay: `bestPay` is exactly what a successful exact solve
returns. -/
theorem optimal_pay_eq_bestPay {e : List Project} {b : ℚ} {x : List Bool}
    (hb : 0 ≤ b) (hopt : IsOptimal e b x) :
    totalPay (selectBy e x) = bestPay e b := by
  apply le_antisymm
  · apply le_foldr_max
    exact List.mem_map.mpr
      ⟨selectBy e x,
       List.mem_filter.mpr ⟨mem_subPools.mpr (selectBy_sublist e x), decide_eq_true hopt.2.1⟩,
       rfl⟩
  · apply foldr_max_le
    · have h0 := hopt.2.2 [] (mem_subPools.mpr (List.nil_sublist e)) hb
      exact h0
    · intro a ha
      rcases List.mem_map.mp ha with ⟨s, hs, rfl⟩
      rcases List.mem_filter.mp hs with ⟨hmem, hcond⟩
      exact hopt.2.2 s hmem (of_decide_eq_true hcond)

theorem optimize_nil (solve : List Project → ℚ → SolveOutcome) (b t : ℚ) :
    optimize_projects solve [] b t = (none, none, some "No projects to optimize") := rfl

theorem optimize_noEligible (solve : List Project → ℚ → SolveOutcome)
    (projects : List Project) (b t : ℚ)
    (h1 : projects ≠ []) (h2 : eligibleFilter projects t = []) :
    optimize_projects solve projects b t =
      (none, none, some "No projects meet the minimum skill match requirement") := by
  have h1' : ¬ projects.length = 0 := by simpa [List.length_eq_zero] using h1
  have hl : (eligibleFilter projects t).length = 0 := by rw [h2]; rfl
  unfold optimize_projects
  rw [if_neg h1', if_pos hl]

theorem optimize_success (solve : List Project → ℚ → SolveOutcome)
    (projects : List Project) (b t : ℚ) (x : List Bool)
    (h1 : projects ≠ []) (h2 : eligibleFilter projects t ≠ [])
    (hs : solve (eligibleFilter projects t) b = SolveOutcome.success x) :
    optimize_projects solve projects b t =
      (some (selectBy (eligibleFilter projects t) x),
       some { total_earnings := totalPay (selectBy (eligibleFilter projects t) x)
              total_hours := totalHours (selectBy (eligibleFilter projects t) x)
              available_hours := b
              hours_remaining := b - totalHours (selectBy (eligibleFilter projects t) x)
              projects_selected := (selectBy (eligibleFilter projects t) x).length
              projects_available := projects.length
              utilization :=
                if 0 < b then totalHours (selectBy (eligibleFilter projects t) x) / b * 100
                else 0 },
       none) := by
  have h1' : ¬ projects.length = 0 := by simpa [List.length_eq_zero] using h1
  have h2' : ¬ (eligibleFilter projects t).length = 0 := by simpa [List.length_eq_zero] using h2
  unfold optimize_projects
  rw [if_neg h1', if_neg h2', hs]

theorem optimize_failure (solve : List Project → ℚ → SolveOutcome)
    (projects : List Project) (b t : ℚ) (m : String)
    (h1 : projects ≠ []) (h2 : eligibleFilter projects t ≠ [])
    (hs : solve (eligibleFilter projects t) b = SolveOutcome.failure m) :
    optimize_projects solve projects b t = (none, none, some ("Optimization failed: " ++ m)) := by
  have h1' : ¬ projects.length = 0 := by simpa [List.length_eq_zero] using h1
  have h2' : ¬ (eligibleFilter projects t).length = 0 := by simpa [List.length_eq_zero] using h2
  unfold optimize_projects
  rw [if_neg h1', if_neg h2', hs]

theorem optimize_exception (solve : List Project → ℚ → SolveOutcome)
    (projects : List Project) (b t : ℚ) (m : String)
    (h1 : projects ≠ []) (h2 : eligibleFilter projects t ≠ [])
    (hs : solve (eligibleFilter projects t) b = SolveOutcome.exception m) :
    optimize_projects solve projects b t =
      (none, none, some ("Error during optimization: " ++ m)) := by
  have h1' : ¬ projects.length = 0 := by simpa [List.length_eq_zero] using h1
  have h2' : ¬ (eligibleFilter projects t).length = 0 := by simpa [List.length_eq_zero] using h2
  unfold optimize_projects
  rw [if_neg h1', if_neg h2', hs]

theorem scenarioA_optimal_aux :
    IsOptimal (eligibleFilter scenarioA 0) 80 [false, true, true, false] := by
  have he : eligibleFilter scenarioA (0 : ℚ) = scenarioA := by decide
  have hsel : selectBy scenarioA [false, true, true, false] =
      [⟨1800, 25, 80⟩, ⟨3200, 50, 90⟩] := by decide
  rw [he]
  unfold IsOptimal
  rw [hsel]
  refine ⟨by decide, ?_, ?_⟩
  · norm_num [totalHours, List.map, List.sum_cons, List.sum_nil]
  · simp only [scenarioA, subPools, List.map_cons, List.map_nil, List.map_append,
      List.cons_append, List.nil_append, List.forall_mem_cons, List.forall_mem_nil,
      totalPay, totalHours, List.map, List.sum_cons, List.sum_nil]
    norm_num

theorem scenarioA_optimal40_aux :
    IsOptimal (eligibleFilter scenarioA 0) 40 [true, false, false, false] := by
  have he : eligibleFilter scenarioA (0 : ℚ) = scenarioA := by decide
  have hsel : selectBy scenarioA [true, false, false, false] = [⟨2500, 40, 95⟩] := by decide
  rw [he]
  unfold IsOptimal
  rw [hsel]
  refine ⟨by decide, ?_, ?_⟩
  · norm_num [totalHours, List.map, List.sum_cons, List.sum_nil]
  · simp only [scenarioA, subPools, List.map_cons, List.map_nil, List.map_append,
      List.cons_append, List.nil_append, List.forall_mem_cons, List.forall_mem_nil,
      totalPay, totalHours, List.map, List.sum_cons, List.sum_nil]
    norm_num

theorem scenarioA_unique_optimum :
    ∀ s ∈ subPools scenarioA, totalHours s ≤ 80 → 5000 ≤ totalPay s →
      s = [⟨1800, 25, 80⟩, ⟨3200, 50, 90⟩] := by
  simp only [scenarioA, subPools, List.map_cons, List.map_nil, List.map_append,
    List.cons_append, List.nil_append, List.forall_mem_cons, List.forall_mem_nil,
    totalPay, totalHours, List.map, List.sum_cons, List.sum_nil]
  norm_num

/-! ### Claims -/

/-- C1: whenever the selection succeeds (the MILP backend returns an
optimal feasible incidence vector for the posed program), the total pay of
the returned selection is the maximum of total pay over all sub-pools of
the eligible pool whose total hours do not exceed the budget: it is
attained by such a sub-pool, and no feasible sub-pool of the eligible pool
has strictly greater total pay. -/
theorem returned_pay_is_maximum (solve : List Project → ℚ → SolveOutcome)
    (projects : List Project) (b t : ℚ) (x : List Bool)
    (h1 : projects ≠ []) (h2 : eligibleFilter projects t ≠ [])
    (hs : solve (eligibleFilter projects t) b = SolveOutcome.success x)
    (hopt : IsOptimal (eligibleFilter projects t) b x) :
    ∃ sel res, optimize_projects solve projects b t = (some sel, some res, none) ∧
      res.total_earnings = totalPay sel ∧
      res.total_earnings ∈
        (((subPools (eligibleFilter projects t)).filter
          (fun s => totalHours s ≤ b)).map totalPay) ∧
      ∀ v ∈ (((subPools (eligibleFilter projects t)).filter
          (fun s => totalHours s ≤ b)).map totalPay), v ≤ res.total_earnings := by
  refine ⟨_, _, optimize_success solve projects b t x h1 h2 hs, rfl, ?_, ?_⟩
  · exact List.mem_map.mpr
      ⟨selectBy (eligibleFilter projects t) x,
       List.mem_filter.mpr
        ⟨mem_subPools.mpr (selectBy_sublist _ _), decide_eq_true hopt.2.1⟩,
       rfl⟩
  · intro v hv
    rcases List.mem_map.mp hv with ⟨s, hsmem, rfl⟩
    rcases List.mem_filter.mp hsmem with ⟨hmem, hcond⟩
    exact hopt.2.2 s hmem (of_decide_eq_true hcond)

/-- Witness for C1: the four-project sample, budget 80, threshold 0, with
the solver returning the optimal incidence vector for projects 2 and 3. -/
theorem returned_pay_is_maximum_witness :
    ∃ sel res,
      optimize_projects (constSolve [false, true, true, false]) scenarioA 80 0 =
        (some sel, some res, none) ∧
      res.total_earnings = totalPay sel ∧
      res.total_earnings ∈
        (((subPools (eligibleFilter scenarioA 0)).filter
          (fun s => totalHours s ≤ 80)).map totalPay) ∧
      ∀ v ∈ (((subPools (eligibleFilter scenarioA 0)).filter
          (fun s => totalHours s ≤ 80)).map totalPay), v ≤ res.total_earnings :=
  returned_pay_is_maximum (constSolve [false, true, true, false]) scenarioA 80 0
    [false, true, true, false] (by decide) (by decide) rfl scenarioA_optimal_aux

/-- C2: on every successful run, the total hours of the selected items is
at most the budget (exactly, with no tolerance needed in exact
arithmetic), and the reported `hours_remaining` equals budget minus total
hours and is nonnegative. -/
theorem selection_within_budget (solve : List Project → ℚ → SolveOutcome)
    (projects : List Project) (b t : ℚ) (x : List Bool)
    (h1 : projects ≠ []) (h2 : eligibleFilter projects t ≠ [])
    (hs : solve (eligibleFilter projects t) b = SolveOutcome.success x)
    (hopt : IsOptimal (eligibleFilter projects t) b x) :
    ∃ sel res, optimize_projects solve projects b t = (some sel, some res, none) ∧
      res.total_hours = totalHours sel ∧
      res.total_hours ≤ b ∧
      res.hours_remaining = b - res.total_hours ∧
      0 ≤ res.hours_remaining := by
  refine ⟨_, _, optimize_success solve projects b t x h1 h2 hs, rfl, hopt.2.1, rfl, ?_⟩
  exact sub_nonneg.mpr hopt.2.1

/-- Witness for C2 at the four-project sample, budget 80, threshold 0. -/
theorem selection_within_budget_witness :
    ∃ sel res,
      optimize_projects (constSolve [false, true, true, false]) scenarioA 80 0 =
        (some sel, some res, none) ∧
      res.total_hours = totalHours sel ∧
      res.total_hours ≤ 80 ∧
      res.hours_remaining = 80 - res.total_hours ∧
      0 ≤ res.hours_remaining :=
  selection_within_budget (constSolve [false, true, true, false]) scenarioA 80 0
    [false, true, true, false] (by decide) (by decide) rfl scenarioA_optimal_aux

/-- C3: the eligibility filter returns exactly the subsequence of items
whose quality score is at least the threshold (equality qualifies), with
the original relative order preserved; and threshold 90 against the sample
scores 95/80/90/75 keeps exactly the items scoring 95 and 90. -/
theorem filter_exact_subsequence :
    (∀ (l : List Project) (t : ℚ),
      (eligibleFilter l t).Sublist l ∧
      (∀ p : Project, p ∈ eligibleFilter l t ↔ p ∈ l ∧ t ≤ p.skill_match)) ∧
    eligibleFilter scenarioA 90 = [⟨2500, 40, 95⟩, ⟨3200, 50, 90⟩] := by
  constructor
  · intro l t
    constructor
    · exact List.filter_sublist l
    · intro p
      simp only [eligibleFilter, List.mem_filter, decide_eq_true_eq]
  · decide

/-- C4: on the four-project instance with budget 80 and threshold 0, every
run whose solver returns an optimal incidence vector selects exactly the
1800-pay/25-hour and 3200-pay/50-hour projects, with total pay 5000, total
hours 75 and 5 hours remaining. -/
theorem scenarioA_run (solve : List Project → ℚ → SolveOutcome) (x : List Bool)
    (hs : solve (eligibleFilter scenarioA 0) 80 = SolveOutcome.success x)
    (hopt : IsOptimal (eligibleFilter scenarioA 0) 80 x) :
    ∃ res, optimize_projects solve scenarioA 80 0 =
        (some [⟨1800, 25, 80⟩, ⟨3200, 50, 90⟩], some res, none) ∧
      res.total_earnings = 5000 ∧ res.total_hours = 75 ∧ res.hours_remaining = 5 := by
  have he : eligibleFilter scenarioA (0 : ℚ) = scenarioA := by decide
  have h := optimize_success solve scenarioA 80 0 x (by decide) (by decide) hs
  rw [he] at h hopt
  have hmem : selectBy scenarioA x ∈ subPools scenarioA :=
    mem_subPools.mpr (selectBy_sublist _ _)
  have h5000 : (5000 : ℚ) ≤ totalPay (selectBy scenarioA x) := by
    have hin : [(⟨1800, 25, 80⟩ : Project), ⟨3200, 50, 90⟩] ∈ subPools scenarioA := by decide
    have hf : totalHours [(⟨1800, 25, 80⟩ : Project), ⟨3200, 50, 90⟩] ≤ 80 := by
      norm_num [totalHours, List.map, List.sum_cons, List.sum_nil]
    have hub := hopt.2.2 _ hin hf
    have hp : totalPay [(⟨1800, 25, 80⟩ : Project), ⟨3200, 50, 90⟩] = 5000 := by
      norm_num [totalPay, List.map, List.sum_cons, List.sum_nil]
    linarith
  have hsel : selectBy scenarioA x = [⟨1800, 25, 80⟩, ⟨3200, 50, 90⟩] :=
    scenarioA_unique_optimum _ hmem hopt.2.1 h5000
  rw [hsel] at h
  refine ⟨_, h, ?_, ?_, ?_⟩
  · norm_num [totalPay, List.map, List.sum_cons, List.sum_nil]
  · norm_num [totalHours, List.map, List.sum_cons, List.sum_nil]
  · norm_num [totalHours, List.map, List.sum_cons, List.sum_nil]

/-- Witness for C4: a concrete run with the optimal incidence vector. -/
theorem scenarioA_run_witness :
    ∃ res, optimize_projects (constSolve [false, true, true, false]) scenarioA 80 0 =
        (some [⟨1800, 25, 80⟩, ⟨3200, 50, 90⟩], some res, none) ∧
      res.total_earnings = 5000 ∧ res.total_hours = 75 ∧ res.hours_remaining = 5 :=
  scenarioA_run (constSolve [false, true, true, false]) [false, true, true, false]
    rfl scenarioA_optimal_aux

theorem singleProject_optimal80_aux :
    IsOptimal (eligibleFilter [⟨100, 40, 50⟩] 0) 80 [true] := by
  have he : eligibleFilter [(⟨100, 40, 50⟩ : Project)] (0 : ℚ) = [⟨100, 40, 50⟩] := by decide
  have hsel : selectBy [(⟨100, 40, 50⟩ : Project)] [true] = [⟨100, 40, 50⟩] := by decide
  rw [he]
  unfold IsOptimal
  rw [hsel]
  refine ⟨rfl, ?_, ?_⟩
  · norm_num [totalHours, List.map, List.sum_cons, List.sum_nil]
  · simp only [subPools, List.map_cons, List.map_nil, List.map_append, List.cons_append,
      List.nil_append, List.forall_mem_cons, List.forall_mem_nil, totalPay, totalHours,
      List.map, List.sum_cons, List.sum_nil]
    norm_num

theorem singleProject_optimal0_aux :
    IsOptimal (eligibleFilter [⟨100, 40, 50⟩] 0) 0 [false] := by
  have he : eligibleFilter [(⟨100, 40, 50⟩ : Project)] (0 : ℚ) = [⟨100, 40, 50⟩] := by decide
  have hsel : selectBy [(⟨100, 40, 50⟩ : Project)] [false] = [] := by decide
  rw [he]
  unfold IsOptimal
  rw [hsel]
  refine ⟨rfl, ?_, ?_⟩
  · norm_num [totalHours, List.map, List.sum_cons, List.sum_nil]
  · simp only [subPools, List.map_cons, List.map_nil, List.map_append, List.cons_append,
      List.nil_append, List.forall_mem_cons, List.forall_mem_nil, totalPay, totalHours,
      List.map, List.sum_cons, List.sum_nil]
    norm_num

theorem negHours_optimal_aux :
    IsOptimal (eligibleFilter [⟨100, -5, 50⟩] 0) 10 [true] := by
  have he : eligibleFilter [(⟨100, -5, 50⟩ : Project)] (0 : ℚ) = [⟨100, -5, 50⟩] := by decide
  have hsel : selectBy [(⟨100, -5, 50⟩ : Project)] [true] = [⟨100, -5, 50⟩] := by decide
  rw [he]
  unfold IsOptimal
  rw [hsel]
  refine ⟨rfl, ?_, ?_⟩
  · norm_num [totalHours, List.map, List.sum_cons, List.sum_nil]
  · simp only [subPools, List.map_cons, List.map_nil, List.map_append, List.cons_append,
      List.nil_append, List.forall_mem_cons, List.forall_mem_nil, totalPay, totalHours,
      List.map, List.sum_cons, List.sum_nil]
    norm_num

/-- C6 counterexample: a successful optimal run on one project of 40 hours
with budget 80 reports utilization 50 (a percentage), while total hours
divided by budget is 1/2; the reported utilization is not the fraction the
claim states. -/
theorem utilization_fraction_counterexample :
    optimize_projects (constSolve [true]) [⟨100, 40, 50⟩] 80 0 =
      (some [⟨100, 40, 50⟩],
       some { total_earnings := 100, total_hours := 40, available_hours := 80,
              hours_remaining := 40, projects_selected := 1, projects_available := 1,
              utilization := 50 }, none) ∧
    IsOptimal (eligibleFilter [⟨100, 40, 50⟩] 0) 80 [true] ∧
    (40 : ℚ) / 80 = 1 / 2 ∧ (50 : ℚ) ≠ 1 / 2 := by
  refine ⟨?_, singleProject_optimal80_aux, by norm_num, by norm_num⟩
  have he : eligibleFilter [(⟨100, 40, 50⟩ : Project)] (0 : ℚ) = [⟨100, 40, 50⟩] := by decide
  have hsel : selectBy [(⟨100, 40, 50⟩ : Project)] [true] = [⟨100, 40, 50⟩] := by decide
  have h := optimize_success (constSolve [true]) [(⟨100, 40, 50⟩ : Project)] 80 0 [true]
      (by decide) (by decide) rfl
  rw [he, hsel] at h
  rw [h, if_pos (show (0 : ℚ) < 80 by norm_num)]
  simp only [Prod.mk.injEq, Option.some.injEq, OptResults.mk.injEq]
  norm_num [totalPay, totalHours, List.map, List.sum_cons, List.sum_nil]

/-- C6 amended: the reported utilization is the percentage
(total hours / budget) × 100 when the budget is positive, and 0 otherwise;
with a zero budget (and a pool of positive-hour items) a successful run
returns the empty selection with total pay 0 and utilization 0, with no
division by zero. -/
theorem utilization_percentage (solve : List Project → ℚ → SolveOutcome)
    (projects : List Project) (b t : ℚ) (x : List Bool)
    (h1 : projects ≠ []) (h2 : eligibleFilter projects t ≠ [])
    (hs : solve (eligibleFilter projects t) b = SolveOutcome.success x)
    (hopt : IsOptimal (eligibleFilter projects t) b x) :
    ∃ sel res, optimize_projects solve projects b t = (some sel, some res, none) ∧
      res.utilization = (if 0 < b then res.total_hours / b * 100 else 0) ∧
      (b = 0 → (∀ p ∈ eligibleFilter projects t, 0 < p.hours_required) →
        sel = [] ∧ res.total_earnings = 0 ∧ res.utilization = 0) := by
  refine ⟨_, _, optimize_success solve projects b t x h1 h2 hs, rfl, ?_⟩
  intro hb0 hp
  subst hb0
  have hfeas := hopt.2.1
  have hnil : selectBy (eligibleFilter projects t) x = [] :=
    eq_nil_of_totalHours_nonpos
      (fun p hpm => hp p ((selectBy_sublist _ _).subset hpm)) hfeas
  refine ⟨hnil, ?_, ?_⟩
  · rw [hnil]
    rfl
  · rw [if_neg (lt_irrefl (0 : ℚ))]

/-- Witness for the amended C6: a zero-budget run on a positive-hours pool
with the solver returning the (only feasible, hence optimal) empty
selection. -/
theorem utilization_percentage_witness :
    ∃ sel res, optimize_projects (constSolve [false]) [⟨100, 40, 50⟩] 0 0 =
        (some sel, some res, none) ∧
      res.utilization = (if 0 < (0 : ℚ) then res.total_hours / 0 * 100 else 0) ∧
      ((0 : ℚ) = 0 → (∀ p ∈ eligibleFilter [⟨100, 40, 50⟩] 0, 0 < p.hours_required) →
        sel = [] ∧ res.total_earnings = 0 ∧ res.utilization = 0) :=
  utilization_percentage (constSolve [false]) [⟨100, 40, 50⟩] 0 0 [false]
    (by decide) (by decide) rfl singleProject_optimal0_aux

/-- C7: a non-empty candidate list none of whose items meets the threshold
fails with the minimum-skill-match message and no selection, and this
outcome is distinct from the empty candidate list's "no projects" outcome. -/
theorem below_threshold_distinct_error (solve : List Project → ℚ → SolveOutcome)
    (projects : List Project) (b t : ℚ)
    (hne : projects ≠ []) (hall : ∀ p ∈ projects, p.skill_match < t) :
    optimize_projects solve projects b t =
      (none, none, some "No projects meet the minimum skill match requirement") ∧
    optimize_projects solve [] b t = (none, none, some "No projects to optimize") ∧
    ("No projects meet the minimum skill match requirement" : String) ≠
      "No projects to optimize" := by
  refine ⟨?_, optimize_nil solve b t, by decide⟩
  apply optimize_noEligible solve projects b t hne
  simp only [eligibleFilter, List.filter_eq_nil_iff, decide_eq_true_eq]
  intro p hp
  exact not_le.mpr (hall p hp)

/-- Witness for C7: one candidate scoring 50 against threshold 60. -/
theorem below_threshold_distinct_error_witness :
    optimize_projects (constSolve [true]) [⟨100, 40, 50⟩] 80 60 =
      (none, none, some "No projects meet the minimum skill match requirement") ∧
    optimize_projects (constSolve [true]) [] 80 60 =
      (none, none, some "No projects to optimize") ∧
    ("No projects meet the minimum skill match requirement" : String) ≠
      "No projects to optimize" :=
  below_threshold_distinct_error (constSolve [true]) [⟨100, 40, 50⟩] 80 60
    (by decide) (by decide)

/-- C8 counterexample: a candidate with negative hours is not rejected:
the run reaches the solver and returns a normal success (error component
`none`) whose metrics expose the invalid value (total hours −5), instead
of failing with a configuration error before solving. -/
theorem negative_hours_not_rejected :
    optimize_projects (constSolve [true]) [⟨100, -5, 50⟩] 10 0 =
      (some [⟨100, -5, 50⟩],
       some { total_earnings := 100, total_hours := -5, available_hours := 10,
              hours_remaining := 15, projects_selected := 1, projects_available := 1,
              utilization := -50 }, none) ∧
    IsOptimal (eligibleFilter [⟨100, -5, 50⟩] 0) 10 [true] := by
  refine ⟨?_, negHours_optimal_aux⟩
  have he : eligibleFilter [(⟨100, -5, 50⟩ : Project)] (0 : ℚ) = [⟨100, -5, 50⟩] := by decide
  have hsel : selectBy [(⟨100, -5, 50⟩ : Project)] [true] = [⟨100, -5, 50⟩] := by decide
  have h := optimize_success (constSolve [true]) [(⟨100, -5, 50⟩ : Project)] 10 0 [true]
      (by decide) (by decide) rfl
  rw [he, hsel] at h
  rw [h, if_pos (show (0 : ℚ) < 10 by norm_num)]
  simp only [Prod.mk.injEq, Option.some.injEq, OptResults.mk.injEq]
  norm_num [totalPay, totalHours, List.map, List.sum_cons, List.sum_nil]

/-- C8 amended: `optimize_projects` performs no input-shape validation at
all: whatever the pays, hours or threshold (negative or out of range
included), any non-empty pool surviving the skill filter is handed to the
solver, and a solver success flows through to a normal selection result
with no error. -/
theorem no_shape_validation (solve : List Project → ℚ → SolveOutcome)
    (projects : List Project) (b t : ℚ) (x : List Bool)
    (h1 : projects ≠ []) (h2 : eligibleFilter projects t ≠ [])
    (hs : solve (eligibleFilter projects t) b = SolveOutcome.success x) :
    (optimize_projects solve projects b t).2.2 = none ∧
    (optimize_projects solve projects b t).1 =
      some (selectBy (eligibleFilter projects t) x) := by
  rw [optimize_success solve projects b t x h1 h2 hs]
  exact ⟨rfl, rfl⟩

/-- Witness for the amended C8: the negative-hours candidate reaches the
solver and its selection is returned. -/
theorem no_shape_validation_witness :
    (optimize_projects (constSolve [true]) [⟨100, -5, 50⟩] 10 0).2.2 = none ∧
    (optimize_projects (constSolve [true]) [⟨100, -5, 50⟩] 10 0).1 =
      some (selectBy (eligibleFilter [⟨100, -5, 50⟩] 0) [true]) :=
  no_shape_validation (constSolve [true]) [⟨100, -5, 50⟩] 10 0 [true]
    (by decide) (by decide) rfl

/-- C9: with the pool and threshold fixed, a larger budget never decreases
the pay of an optimal selection (both for two optimal runs and for the
best achievable pay), and a larger threshold never increases the size of
the eligible pool. -/
theorem monotone_budget_and_threshold (projects : List Project)
    (b1 b2 t t1 t2 : ℚ) (x1 x2 : List Bool)
    (hb : b1 ≤ b2) (ht : t1 ≤ t2)
    (hopt1 : IsOptimal (eligibleFilter projects t) b1 x1)
    (hopt2 : IsOptimal (eligibleFilter projects t) b2 x2) :
    totalPay (selectBy (eligibleFilter projects t) x1) ≤
      totalPay (selectBy (eligibleFilter projects t) x2) ∧
    bestPay (eligibleFilter projects t) b1 ≤ bestPay (eligibleFilter projects t) b2 ∧
    (eligibleFilter projects t2).length ≤ (eligibleFilter projects t1).length := by
  refine ⟨?_, bestPay_mono _ hb, ?_⟩
  · exact hopt2.2.2 _ (mem_subPools.mpr (selectBy_sublist _ _)) (le_trans hopt1.2.1 hb)
  · apply length_filter_mono
    intro a ha
    exact decide_eq_true (le_trans ht (of_decide_eq_true ha))

/-- Witness for C9: four-project sample, budgets 40 and 80, thresholds 0
and 90, with the optimal incidence vectors at each budget. -/
theorem monotone_budget_and_threshold_witness :
    totalPay (selectBy (eligibleFilter scenarioA 0) [true, false, false, false]) ≤
      totalPay (selectBy (eligibleFilter scenarioA 0) [false, true, true, false]) ∧
    bestPay (eligibleFilter scenarioA 0) 40 ≤ bestPay (eligibleFilter scenarioA 0) 80 ∧
    (eligibleFilter scenarioA 90).length ≤ (eligibleFilter scenarioA 0).length :=
  monotone_budget_and_threshold scenarioA 40 80 0 0 90 [true, false, false, false]
    [false, true, true, false] (by norm_num) (by norm_num)
    scenarioA_optimal40_aux scenarioA_optimal_aux

/-- C10: every call returns either a success triple, with a selection and
metrics and no error, or a failure triple, with neither selection nor
metrics and a non-empty error message; error and selection are never both
present or both absent. -/
theorem result_triple_shape (solve : List Project → ℚ → SolveOutcome)
    (projects : List Project) (b t : ℚ) :
    (∃ sel res, optimize_projects solve projects b t = (some sel, some res, none)) ∨
    (∃ m, optimize_projects solve projects b t = (none, none, some m) ∧ m ≠ "") := by
  by_cases h1 : projects = []
  · subst h1
    exact Or.inr ⟨_, optimize_nil solve b t, by decide⟩
  · by_cases h2 : eligibleFilter projects t = []
    · exact Or.inr ⟨_, optimize_noEligible solve projects b t h1 h2, by decide⟩
    · cases hs : solve (eligibleFilter projects t) b with
      | success x =>
          exact Or.inl ⟨_, _, optimize_success solve projects b t x h1 h2 hs⟩
      | failure m =>
          exact Or.inr ⟨_, optimize_failure solve projects b t m h1 h2 hs,
            append_ne_empty _ _ (by decide)⟩
      | exception m =>
          exact Or.inr ⟨_, optimize_exception solve projects b t m h1 h2 hs,
            append_ne_empty _ _ (by decide)⟩

end GigOptimizer
